import Mathlib

/-!
Shallow embedding of the CTAP HID USB client capsule
(`capsules/src/usb/usbc_ctap_hid.rs`): the packet-level flow-control state
machine of `ClientCtapHID`, its public operations (`transmit_packet`,
`receive_packet`, `cancel_transaction`) and the hardware callbacks
(`packet_in`, `packet_out`, `packet_transmitted`).

Machine bytes are modelled as `Nat`; a 64-byte packet is a `List Nat`.
Rust `Cell`/`OptionalCell` state becomes explicit state passing on
`HidState`.  Calls into the controller (`endpoint_resume_in`,
`endpoint_resume_out`, `endpoint_cancel_in`) and into the client
(`packet_received`, `packet_transmitted`) are recorded as an event trace.
A Rust panic (failed `assert!`, `unreachable!`, `panic!`, or a
`copy_from_slice` length mismatch) is modelled as the `none` outcome.
-/

/-- USB transfer types, from `kernel::hil::usb::TransferType`. -/
inductive TransferType where
  | Bulk
  | Control
  | Isochronous
  | Interrupt
deriving DecidableEq, Repr

/-- Result of an IN transaction callback, from `hil::usb::InResult`. -/
inductive InResult where
  | Packet (size : Nat)
  | Delay
  | Error
deriving DecidableEq, Repr

/-- Result of an OUT transaction callback, from `hil::usb::OutResult`. -/
inductive OutResult where
  | Ok
  | Delay
  | Error
deriving DecidableEq, Repr

/-- A 64-byte packet (`[u8; 64]` in the source); bytes are `Nat`. -/
abbrev Packet := List Nat

/-- Observable calls made by the capsule into the controller and the client. -/
inductive Event where
  | resumeIn (endpoint : Nat)
  | resumeOut (endpoint : Nat)
  | cancelIn (endpoint : Nat)
  | packetReceived (packet : Packet)
  | packetTransmitted
deriving DecidableEq, Repr

/-- The mutable state of `ClientCtapHID`: the staged outgoing packet
(`tx_packet: OptionalCell<[u8; 64]>`), the three flow-control flags, the
64-byte endpoint buffer (`buffer: Buffer64`, shared with the hardware), and
whether a client has been registered (`client: OptionalCell`). -/
structure HidState where
  txPacket : Option Packet
  pendingIn : Bool
  pendingOut : Bool
  delayedOut : Bool
  buffer : Packet
  clientSet : Bool
deriving DecidableEq, Repr

/-- The state built by `ClientCtapHID::new`: empty `tx_packet`, all flags
false, a zeroed 64-byte buffer, no client. -/
def initState : HidState :=
  { txPacket := none
    pendingIn := false
    pendingOut := false
    delayedOut := false
    buffer := List.replicate 64 0
    clientSet := false }

/-- `set_client`: registers the upper-layer client. -/
def set_client (s : HidState) : HidState :=
  { s with clientSet := true }

/-- `cancel_in_transaction`: takes `tx_packet`, takes `pending_in`, and if a
transmission was pending instructs the controller to cancel the IN transfer.
Returns whether anything was cancelled. -/
def cancel_in_transaction (s : HidState) : Bool × HidState × List Event :=
  let s1 := { s with txPacket := none }
  let result := s1.pendingIn
  let s2 := { s1 with pendingIn := false }
  if result then (true, s2, [Event.cancelIn 1]) else (false, s2, [])

/-- `cancel_out_transaction`: takes `pending_out`, returning its old value. -/
def cancel_out_transaction (s : HidState) : Bool × HidState :=
  (s.pendingOut, { s with pendingOut := false })

/-- `cancel_transaction`: cancels both directions with the non-short-circuit
`|`, so both sub-cancellations always run. -/
def cancel_transaction (s : HidState) : Bool × HidState × List Event :=
  let r1 := cancel_in_transaction s
  let r2 := cancel_out_transaction r1.2.1
  (r1.1 || r2.1, r2.2, r1.2.2)

/-- `send_packet_to_client`: snapshots the endpoint buffer, asserts
`!delayed_out` (panic — `none` — otherwise); if the client is present and
`can_receive_packet()` (the `ready` argument) holds, asserts and takes
`pending_out` (panic if it was clear), cancels any staged IN transaction and
delivers the snapshot to the client, returning `true`; otherwise sets
`delayed_out` and returns `false`. -/
def send_packet_to_client (ready : Bool) (s : HidState) :
    Option (Bool × HidState × List Event) :=
  let buf := s.buffer
  if s.delayedOut then
    none
  else if s.clientSet && ready then
    if s.pendingOut then
      let s1 := { s with pendingOut := false }
      let c := cancel_in_transaction s1
      some (true, c.2.1, c.2.2 ++ [Event.packetReceived buf])
    else
      none
  else
    some (false, { s with delayedOut := true }, [])

/-- `receive_packet`: rejects (returns `false`) if a receive is pending;
otherwise sets `pending_out`, and if `delayed_out` was set (taking it),
retries delivery of the held packet, resuming OUT polling on success. -/
def receive_packet (ready : Bool) (s : HidState) :
    Option (Bool × HidState × List Event) :=
  if s.pendingOut then
    some (false, s, [])
  else
    let s1 := { s with pendingOut := true }
    if s1.delayedOut then
      let s2 := { s1 with delayedOut := false }
      match send_packet_to_client ready s2 with
      | none => none
      | some (true, s3, e) => some (true, s3, e ++ [Event.resumeOut 1])
      | some (false, s3, e) => some (true, s3, e)
    else
      some (true, s1, [])

/-- `transmit_packet`: rejects (returns `false`) if a transmission is
pending; otherwise sets `pending_in`, copies the packet into `tx_packet`
(the Rust `copy_from_slice` panics — `none` — unless the slice is exactly
64 bytes) and resumes IN polling. -/
def transmit_packet (packet : Packet) (s : HidState) :
    Option (Bool × HidState × List Event) :=
  if s.pendingIn then
    some (false, s, [])
  else
    let s1 := { s with pendingIn := true }
    if packet.length = 64 then
      some (true, { s1 with txPacket := some packet }, [Event.resumeIn 1])
    else
      none

/-- `packet_in` callback: Bulk is an error; Interrupt on an endpoint other
than 1 is an error; with a staged packet, copies it into the endpoint buffer
and reports `Packet(64)`, consuming the staged packet; with nothing staged
reports `Delay`.  Control and Isochronous hit `unreachable!()` (`none`). -/
def packet_in (transfer_type : TransferType) (endpoint : Nat) (s : HidState) :
    Option (InResult × HidState × List Event) :=
  match transfer_type with
  | TransferType.Bulk => some (InResult.Error, s, [])
  | TransferType.Interrupt =>
    if endpoint ≠ 1 then
      some (InResult.Error, s, [])
    else
      match s.txPacket with
      | some packet =>
        some (InResult.Packet 64, { s with txPacket := none, buffer := packet }, [])
      | none => some (InResult.Delay, s, [])
  | TransferType.Control => none
  | TransferType.Isochronous => none

/-- `packet_out` callback: Bulk is an error; Interrupt on an endpoint other
than 1 is an error; a byte count other than 64 is an error; otherwise runs
the delivery attempt, mapping its boolean to `Ok`/`Delay`.  Control and
Isochronous hit `unreachable!()` (`none`). -/
def packet_out (transfer_type : TransferType) (endpoint : Nat)
    (packet_bytes : Nat) (ready : Bool) (s : HidState) :
    Option (OutResult × HidState × List Event) :=
  match transfer_type with
  | TransferType.Bulk => some (OutResult.Error, s, [])
  | TransferType.Interrupt =>
    if endpoint ≠ 1 then
      some (OutResult.Error, s, [])
    else if packet_bytes ≠ 64 then
      some (OutResult.Error, s, [])
    else
      match send_packet_to_client ready s with
      | none => none
      | some (true, s1, e) => some (OutResult.Ok, s1, e)
      | some (false, s1, e) => some (OutResult.Delay, s1, e)
  | TransferType.Control => none
  | TransferType.Isochronous => none

/-- `packet_transmitted` callback: panics (`none`) on an endpoint other than
1 or if a packet is still staged; otherwise clears `pending_in` and notifies
the registered client. -/
def packet_transmitted (endpoint : Nat) (s : HidState) :
    Option (HidState × List Event) :=
  if endpoint ≠ 1 then
    none
  else if s.txPacket.isSome then
    none
  else
    some ({ s with pendingIn := false },
      if s.clientSet then [Event.packetTransmitted] else [])

/-- One operation or hardware callback on the state machine.  `hwWrite`
models the hardware writing the shared endpoint buffer before an OUT
callback; it touches no capsule state but the buffer. -/
inductive Op where
  | setClient
  | transmit (packet : Packet)
  | receive (ready : Bool)
  | cancel
  | packetIn (transfer_type : TransferType) (endpoint : Nat)
  | packetOut (transfer_type : TransferType) (endpoint : Nat)
      (packet_bytes : Nat) (ready : Bool)
  | packetTransmitted (endpoint : Nat)
  | hwWrite (packet : Packet)

/-- State projection of one operation; `none` when the operation panics. -/
def stepOp (op : Op) (s : HidState) : Option HidState :=
  match op with
  | Op.setClient => some (set_client s)
  | Op.transmit p => (transmit_packet p s).map (fun x => x.2.1)
  | Op.receive r => (receive_packet r s).map (fun x => x.2.1)
  | Op.cancel => some (cancel_transaction s).2.1
  | Op.packetIn tt ep => (packet_in tt ep s).map (fun x => x.2.1)
  | Op.packetOut tt ep n r => (packet_out tt ep n r s).map (fun x => x.2.1)
  | Op.packetTransmitted ep => (packet_transmitted ep s).map (fun x => x.1)
  | Op.hwWrite p => some { s with buffer := p }

/-- States reachable from the freshly constructed capsule by any sequence of
operations and hardware callbacks that does not panic. -/
inductive Reachable : HidState → Prop where
  | init : Reachable initState
  | next (op : Op) (s s' : HidState) :
      Reachable s → stepOp op s = some s' → Reachable s'

/-- The operations that preserve `DelayedOut ⇒ PendingOut`: all of them
except `packet_out` and `cancel_transaction`. -/
def preservingOp : Op → Bool
  | Op.packetOut _ _ _ _ => false
  | Op.cancel => false
  | _ => true

/-- Reachable state used to refute C1: client registered, a receive
outstanding, and a withheld packet (`DelayedOut` and `PendingOut` both
set). -/
def c1CexState : HidState :=
  { initState with clientSet := true, pendingOut := true, delayedOut := true }

/-- Reachable state used to refute C2: a packet arrived while no receive
was outstanding and the client was not ready, so `DelayedOut` is set while
`PendingOut` is clear. -/
def c2CexState : HidState :=
  { initState with delayedOut := true }

/-- State used to refute C9: client registered and ready, a withheld packet
(`DelayedOut`) and no receive outstanding, so the next `receive()` delivers
immediately and ends with `PendingOut` clear. -/
def c9CexState : HidState :=
  { initState with clientSet := true, delayedOut := true }

lemma cancel_in_transaction_eq (s : HidState) :
    cancel_in_transaction s =
      (s.pendingIn, { s with txPacket := none, pendingIn := false },
        if s.pendingIn then [Event.cancelIn 1] else []) := by
  cases h : s.pendingIn <;> simp [cancel_in_transaction, h]

lemma cancel_transaction_eq (s : HidState) :
    cancel_transaction s =
      (s.pendingIn || s.pendingOut,
        { s with txPacket := none, pendingIn := false, pendingOut := false },
        if s.pendingIn then [Event.cancelIn 1] else []) := by
  simp [cancel_transaction, cancel_in_transaction_eq, cancel_out_transaction]

lemma send_packet_to_client_eq (ready : Bool) (s : HidState) :
    send_packet_to_client ready s =
      if s.delayedOut then none
      else if s.clientSet && ready then
        if s.pendingOut then
          some (true,
            { s with pendingOut := false, txPacket := none, pendingIn := false },
            (if s.pendingIn then [Event.cancelIn 1] else []) ++
              [Event.packetReceived s.buffer])
        else none
      else some (false, { s with delayedOut := true }, []) := by
  simp only [send_packet_to_client, cancel_in_transaction_eq]

/-- Field-level postcondition of `send_packet_to_client`, used by the
invariant proofs. -/
lemma send_packet_to_client_fields (ready : Bool) (s s' : HidState) (res : Bool)
    (e : List Event) (h : send_packet_to_client ready s = some (res, s', e)) :
    (res = true ∧ s'.txPacket = none ∧ s'.pendingIn = false ∧
      s'.pendingOut = false ∧ s'.delayedOut = false ∧
      s.pendingOut = true ∧ s.delayedOut = false) ∨
    (res = false ∧ s' = { s with delayedOut := true }) := by
  rw [send_packet_to_client_eq] at h
  split at h
  · exact absurd h (by simp)
  · rename_i hd
    split at h
    · split at h
      · rename_i hp
        simp only [Option.some.injEq, Prod.mk.injEq] at h
        obtain ⟨h1, h2, h3⟩ := h
        subst h1; subst h2
        left
        exact ⟨rfl, rfl, rfl, rfl, by simpa using hd, hp, by simpa using hd⟩
      · exact absurd h (by simp)
    · simp only [Option.some.injEq, Prod.mk.injEq] at h
      obtain ⟨h1, h2, h3⟩ := h
      subst h1; subst h2
      right
      exact ⟨rfl, rfl⟩

lemma receive_packet_eq (ready : Bool) (s : HidState) :
    receive_packet ready s =
      if s.pendingOut then some (false, s, [])
      else if s.delayedOut then
        if s.clientSet && ready then
          some (true,
            { s with pendingOut := false, delayedOut := false,
                     txPacket := none, pendingIn := false },
            ((if s.pendingIn then [Event.cancelIn 1] else []) ++
              [Event.packetReceived s.buffer]) ++ [Event.resumeOut 1])
        else
          some (true, { s with pendingOut := true, delayedOut := true }, [])
      else some (true, { s with pendingOut := true }, []) := by
  cases hp : s.pendingOut <;>
    cases hd : s.delayedOut <;>
      cases hc : s.clientSet <;>
        cases hr : ready <;>
          simp [receive_packet, send_packet_to_client_eq, hp, hd, hc, hr]

/-- C3: for a 64-byte packet, `transmit_packet` with `PendingIn` set returns
`false` and leaves the state (staged packet and all flags) unchanged, making
no controller call; with `PendingIn` clear it stages the packet, sets
`PendingIn`, calls `endpoint_resume_in(1)`, and returns `true`.  The staged
slot holds at most one packet; an excess request is rejected, not queued. -/
theorem c3_transmit_spec (p : Packet) (s : HidState) (hp : p.length = 64) :
    (s.pendingIn = true → transmit_packet p s = some (false, s, [])) ∧
    (s.pendingIn = false →
      transmit_packet p s =
        some (true, { s with pendingIn := true, txPacket := some p },
          [Event.resumeIn 1])) := by
  constructor
  · intro h
    simp [transmit_packet, h]
  · intro h
    simp [transmit_packet, h, hp]

theorem c3_transmit_spec_witness :
    transmit_packet (List.replicate 64 0) initState =
      some (true,
        { initState with pendingIn := true, txPacket := some (List.replicate 64 0) },
        [Event.resumeIn 1]) :=
  (c3_transmit_spec (List.replicate 64 0) initState (by simp)).2 rfl

/-- C4: `cancel_transaction` always leaves `PendingIn` false, `PendingOut`
false and the staged packet empty; it returns `true` iff `PendingIn` or
`PendingOut` was set beforehand (so a second consecutive call returns
`false`), and `endpoint_cancel_in(1)` is invoked exactly when `PendingIn`
was set. -/
theorem c4_cancel_spec (s : HidState) :
    cancel_transaction s =
      (s.pendingIn || s.pendingOut,
        { s with txPacket := none, pendingIn := false, pendingOut := false },
        if s.pendingIn then [Event.cancelIn 1] else []) ∧
    (cancel_transaction (cancel_transaction s).2.1).1 = false := by
  refine ⟨cancel_transaction_eq s, ?_⟩
  simp [cancel_transaction_eq]

/-- C5: whenever a delivery attempt succeeds (`send_packet_to_client`
returns `true`), the staged-but-not-yet-sent IN packet is cleared,
`PendingOut` is cleared, and the client callback receives the snapshot of
the 64-byte incoming buffer taken before delivery. -/
theorem c5_delivery_clears_staged (ready : Bool) (s s' : HidState)
    (e : List Event) (h : send_packet_to_client ready s = some (true, s', e)) :
    s'.txPacket = none ∧ s'.pendingOut = false ∧
      Event.packetReceived s.buffer ∈ e := by
  rw [send_packet_to_client_eq] at h
  split at h
  · exact absurd h (by simp)
  · split at h
    · split at h
      · simp only [Option.some.injEq, Prod.mk.injEq] at h
        obtain ⟨-, h2, h3⟩ := h
        subst h2
        refine ⟨rfl, rfl, ?_⟩
        rw [← h3]
        simp
      · exact absurd h (by simp)
    · simp at h

theorem c5_delivery_clears_staged_witness :
    ({ initState with clientSet := true } : HidState).txPacket = none ∧
    ({ initState with clientSet := true } : HidState).pendingOut = false ∧
    Event.packetReceived
        ({ initState with clientSet := true, pendingOut := true } : HidState).buffer ∈
      [Event.packetReceived (List.replicate 64 0)] :=
  c5_delivery_clears_staged true
    { initState with clientSet := true, pendingOut := true }
    { initState with clientSet := true }
    [Event.packetReceived (List.replicate 64 0)] (by decide)

/-- C1 counterexample: a reachable state (register the client, call
`receive()`, then a 64-byte OUT packet arrives while the client is not
ready) has `DelayedOut` set, yet the next `receive()` call — with the
client now reporting `can_receive_packet()` true — returns `false` and
delivers nothing, because `PendingOut` is still set.  This refutes the
claim, which quantifies over every reachable state with `DelayedOut` set. -/
theorem c1_counterexample :
    Reachable c1CexState ∧ c1CexState.delayedOut = true ∧
    c1CexState.clientSet = true ∧
    receive_packet true c1CexState = some (false, c1CexState, []) := by
  refine ⟨?_, rfl, rfl, rfl⟩
  have h1 : Reachable { initState with clientSet := true } :=
    Reachable.next Op.setClient initState _ Reachable.init (by decide)
  have h2 : Reachable { initState with clientSet := true, pendingOut := true } :=
    Reachable.next (Op.receive false) _ _ h1 (by decide)
  exact Reachable.next (Op.packetOut TransferType.Interrupt 1 64 false) _ _ h2
    (by decide)

/-- C1 (amended): for every state in which `DelayedOut` is set, `PendingOut`
is clear, and the client is registered and reports `can_receive_packet()`
true, the next `receive()` call returns `true`, invokes the client's
`packet_received` with the held buffer contents, leaves both `PendingOut`
and `DelayedOut` clear, and instructs the controller to resume OUT polling
(`endpoint_resume_out(1)`). -/
theorem c1_delayed_delivery (s : HidState) (h1 : s.delayedOut = true)
    (h2 : s.pendingOut = false) (h3 : s.clientSet = true) :
    receive_packet true s =
      some (true,
        { s with pendingOut := false, delayedOut := false,
                 txPacket := none, pendingIn := false },
        ((if s.pendingIn then [Event.cancelIn 1] else []) ++
          [Event.packetReceived s.buffer]) ++ [Event.resumeOut 1]) := by
  rw [receive_packet_eq]
  simp [h1, h2, h3]

theorem c1_delayed_delivery_witness :
    receive_packet true c9CexState =
      some (true, { initState with clientSet := true },
        [Event.packetReceived (List.replicate 64 0), Event.resumeOut 1]) :=
  c1_delayed_delivery c9CexState rfl rfl rfl

/-- C9 counterexample: in a reachable state with `PendingOut` clear but a
withheld packet (`DelayedOut`) and a ready client, `receive_packet` returns
`true` yet the immediate delivery clears `PendingOut` again, so the final
state has `PendingOut` false — refuting "sets PendingOut" read as a
postcondition. -/
theorem c9_counterexample :
    c9CexState.pendingOut = false ∧ Reachable c9CexState ∧
    receive_packet true c9CexState =
      some (true, { initState with clientSet := true },
        [Event.packetReceived (List.replicate 64 0), Event.resumeOut 1]) ∧
    ({ initState with clientSet := true } : HidState).pendingOut = false := by
  refine ⟨rfl, ?_, by decide, rfl⟩
  have h1 : Reachable { initState with clientSet := true } :=
    Reachable.next Op.setClient initState _ Reachable.init (by decide)
  exact Reachable.next (Op.packetOut TransferType.Interrupt 1 64 false) _ _ h1
    (by decide)

/-- C9 (amended): with `PendingOut` set, `receive_packet` returns `false`
and changes nothing; with `PendingOut` clear it returns `true`, and the
resulting state has `PendingOut` set unless a withheld packet (`DelayedOut`)
was immediately delivered to a registered, ready client, in which case the
delivery clears `PendingOut` again. -/
theorem c9_receive_spec (ready : Bool) (s : HidState) :
    (s.pendingOut = true → receive_packet ready s = some (false, s, [])) ∧
    (s.pendingOut = false →
      (receive_packet ready s).map (fun x => x.1) = some true ∧
      (receive_packet ready s).map (fun x => x.2.1.pendingOut) =
        some (!(s.delayedOut && s.clientSet && ready))) := by
  rw [receive_packet_eq]
  cases hp : s.pendingOut <;> cases hd : s.delayedOut <;>
    cases hc : s.clientSet <;> cases hr : ready <;> simp [hp, hd, hc, hr]

theorem c9_receive_spec_witness :
    (receive_packet false initState).map (fun x => x.1) = some true ∧
    (receive_packet false initState).map (fun x => x.2.1.pendingOut) =
      some (!(initState.delayedOut && initState.clientSet && false)) :=
  (c9_receive_spec false initState).2 rfl

/-- C2 counterexample: the state reached from the initial state by a single
64-byte interrupt OUT callback with the client not ready has `DelayedOut`
set while `PendingOut` is clear, refuting the invariant
`DelayedOut ⇒ PendingOut` on reachable states. -/
theorem c2_counterexample :
    Reachable c2CexState ∧ c2CexState.delayedOut = true ∧
    c2CexState.pendingOut = false :=
  ⟨Reachable.next (Op.packetOut TransferType.Interrupt 1 64 false) initState _
      Reachable.init (by decide), rfl, rfl⟩

/-- C2 (amended): the operations `transmit_packet`, `receive_packet`,
`packet_in`, `packet_transmitted` (as well as `set_client` and hardware
buffer writes) preserve `DelayedOut ⇒ PendingOut`; the invariant is not
preserved by `packet_out` (a packet arriving with no receive outstanding
and the client not ready sets `DelayedOut` alone) nor by
`cancel_transaction` (which clears `PendingOut` but not `DelayedOut`), so
it does not hold in all reachable states. -/
theorem c2_delayed_implies_pending_partial (op : Op) (s s' : HidState)
    (hop : preservingOp op = true)
    (hinv : s.delayedOut = true → s.pendingOut = true)
    (hstep : stepOp op s = some s') :
    s'.delayedOut = true → s'.pendingOut = true := by
  cases op with
  | setClient =>
    simp only [stepOp, Option.some.injEq] at hstep
    subst hstep
    simpa [set_client] using hinv
  | transmit p =>
    by_cases hpi : s.pendingIn = true
    · simp [stepOp, transmit_packet, hpi] at hstep
      subst hstep
      exact hinv
    · have hpi2 : s.pendingIn = false := by simpa using hpi
      by_cases hl : p.length = 64
      · simp [stepOp, transmit_packet, hpi2, hl] at hstep
        subst hstep
        simpa using hinv
      · simp [stepOp, transmit_packet, hpi2, hl] at hstep
  | receive r =>
    cases hp : s.pendingOut with
    | true =>
      simp [stepOp, receive_packet_eq, hp] at hstep
      subst hstep
      exact hinv
    | false =>
      cases hd : s.delayedOut with
      | true => exact absurd (hinv hd) (by simp [hp])
      | false =>
        simp [stepOp, receive_packet_eq, hp, hd] at hstep
        subst hstep
        simp [hd]
  | cancel => simp [preservingOp] at hop
  | packetIn tt ep =>
    cases tt with
    | Bulk =>
      simp [stepOp, packet_in] at hstep
      subst hstep
      exact hinv
    | Control => simp [stepOp, packet_in] at hstep
    | Isochronous => simp [stepOp, packet_in] at hstep
    | Interrupt =>
      by_cases hep : ep = 1
      · cases htx : s.txPacket with
        | none =>
          simp [stepOp, packet_in, hep, htx] at hstep
          subst hstep
          exact hinv
        | some q =>
          simp [stepOp, packet_in, hep, htx] at hstep
          subst hstep
          simpa using hinv
      · simp [stepOp, packet_in, hep] at hstep
        subst hstep
        exact hinv
  | packetOut tt ep n r => simp [preservingOp] at hop
  | packetTransmitted ep =>
    by_cases hep : ep = 1
    · cases htx : s.txPacket.isSome with
      | true => simp [stepOp, packet_transmitted, hep, htx] at hstep
      | false =>
        simp [stepOp, packet_transmitted, hep, htx] at hstep
        subst hstep
        simpa using hinv
    · simp [stepOp, packet_transmitted, hep] at hstep
  | hwWrite p =>
    simp only [stepOp, Option.some.injEq] at hstep
    subst hstep
    simpa using hinv

theorem c2_delayed_implies_pending_partial_witness :
    (set_client c1CexState).pendingOut = true :=
  c2_delayed_implies_pending_partial Op.setClient c1CexState
    (set_client c1CexState) rfl (by decide) rfl rfl

/-- C6 counterexample: `packet_in` and `packet_out` invoked with the Control
or Isochronous transfer type do not return an explicit Error result — they
hit `unreachable!()` and panic (modelled as `none`), refuting the claim for
the non-interrupt transfer types other than Bulk. -/
theorem c6_counterexample :
    packet_in TransferType.Control 1 initState = none ∧
    packet_in TransferType.Isochronous 1 initState = none ∧
    packet_out TransferType.Control 1 64 true initState = none ∧
    packet_out TransferType.Isochronous 1 64 true initState = none :=
  ⟨rfl, rfl, rfl, rfl⟩

/-- C6 (amended): `packet_in`/`packet_out` with the Bulk transfer type (on
any endpoint), with the Interrupt type on an endpoint other than 1 (with any
byte count), or `packet_out` on Interrupt endpoint 1 with a byte count other
than 64, return an explicit Error result and leave the state unchanged with
no controller or client call (in particular never set `PendingOut` or
`DelayedOut`); the Control and Isochronous transfer types instead panic
(`unreachable!`) rather than returning an error result. -/
theorem c6_usage_errors (ep bytes : Nat) (ready : Bool) (s : HidState) :
    packet_in TransferType.Bulk ep s = some (InResult.Error, s, []) ∧
    (ep ≠ 1 → packet_in TransferType.Interrupt ep s =
      some (InResult.Error, s, [])) ∧
    packet_out TransferType.Bulk ep bytes ready s =
      some (OutResult.Error, s, []) ∧
    (ep ≠ 1 → packet_out TransferType.Interrupt ep bytes ready s =
      some (OutResult.Error, s, [])) ∧
    (bytes ≠ 64 → packet_out TransferType.Interrupt 1 bytes ready s =
      some (OutResult.Error, s, [])) ∧
    packet_in TransferType.Control ep s = none ∧
    packet_in TransferType.Isochronous ep s = none ∧
    packet_out TransferType.Control ep bytes ready s = none ∧
    packet_out TransferType.Isochronous ep bytes ready s = none := by
  refine ⟨rfl, ?_, rfl, ?_, ?_, rfl, rfl, rfl, rfl⟩
  · intro hep
    simp [packet_in, hep]
  · intro hep
    simp [packet_out, hep]
  · intro hb
    simp [packet_out, hb]

theorem c6_usage_errors_witness :
    packet_in TransferType.Bulk 1 initState = some (InResult.Error, initState, []) ∧
    packet_in TransferType.Interrupt 2 initState =
      some (InResult.Error, initState, []) ∧
    packet_out TransferType.Bulk 1 64 true initState =
      some (OutResult.Error, initState, []) ∧
    packet_out TransferType.Interrupt 2 64 true initState =
      some (OutResult.Error, initState, []) ∧
    packet_out TransferType.Interrupt 1 63 true initState =
      some (OutResult.Error, initState, []) ∧
    packet_in TransferType.Control 1 initState = none ∧
    packet_in TransferType.Isochronous 1 initState = none ∧
    packet_out TransferType.Control 1 64 true initState = none ∧
    packet_out TransferType.Isochronous 1 64 true initState = none :=
  ⟨(c6_usage_errors 1 64 true initState).1,
   (c6_usage_errors 2 64 true initState).2.1 (by decide),
   (c6_usage_errors 1 64 true initState).2.2.1,
   (c6_usage_errors 2 64 true initState).2.2.2.1 (by decide),
   (c6_usage_errors 1 63 true initState).2.2.2.2.1 (by decide),
   (c6_usage_errors 1 64 true initState).2.2.2.2.2.1,
   (c6_usage_errors 1 64 true initState).2.2.2.2.2.2.1,
   (c6_usage_errors 1 64 true initState).2.2.2.2.2.2.2.1,
   (c6_usage_errors 1 64 true initState).2.2.2.2.2.2.2.2⟩

/-- C10: a 64-byte interrupt OUT packet arriving on endpoint 1 while the
client is registered and reports `can_receive_packet()` true but
`PendingOut` is clear makes the delivery path fail an assertion and panic
(`none`) rather than deliver the packet or return a result; and any
`packet_out` that succeeds (`Ok`, i.e. a delivery happened) was invoked in
a state with `PendingOut` set. -/
theorem c10_out_without_receive_panics (s t s' : HidState) (e : List Event)
    (h1 : s.pendingOut = false) (h2 : s.clientSet = true)
    (h3 : packet_out TransferType.Interrupt 1 64 true t =
      some (OutResult.Ok, s', e)) :
    packet_out TransferType.Interrupt 1 64 true s = none ∧
    t.pendingOut = true := by
  constructor
  · cases hd : s.delayedOut <;>
      simp [packet_out, send_packet_to_client_eq, hd, h1, h2]
  · cases ht3 : t.pendingOut with
    | false =>
      exfalso
      cases ht1 : t.delayedOut <;> cases ht2 : t.clientSet <;>
        simp [packet_out, send_packet_to_client_eq, ht1, ht2, ht3] at h3
    | true => rfl

theorem c10_out_without_receive_panics_witness :
    packet_out TransferType.Interrupt 1 64 true
        { initState with clientSet := true } = none ∧
    ({ initState with clientSet := true, pendingOut := true } :
      HidState).pendingOut = true :=
  c10_out_without_receive_panics { initState with clientSet := true }
    { initState with clientSet := true, pendingOut := true }
    { initState with clientSet := true }
    [Event.packetReceived (List.replicate 64 0)] rfl rfl (by decide)

/-- C7: after a successful `transmit_packet(P1)`, the next `packet_in` on
interrupt endpoint 1 returns `Packet(64)` with the endpoint buffer holding
exactly `P1` and consumes the staged packet; `packet_in` with nothing
staged returns `Delay`; and `packet_transmitted` on endpoint 1 afterwards
clears `PendingIn` and invokes the client's transmitted notification
exactly once. -/
theorem c7_transmit_roundtrip (s : HidState) (P1 : Packet) (t : HidState)
    (hlen : P1.length = 64) (hpi : s.pendingIn = false)
    (hc : s.clientSet = true) (htx : t.txPacket = none) :
    transmit_packet P1 s =
      some (true, { s with pendingIn := true, txPacket := some P1 },
        [Event.resumeIn 1]) ∧
    packet_in TransferType.Interrupt 1
        { s with pendingIn := true, txPacket := some P1 } =
      some (InResult.Packet 64,
        { s with pendingIn := true, txPacket := none, buffer := P1 }, []) ∧
    packet_in TransferType.Interrupt 1 t = some (InResult.Delay, t, []) ∧
    packet_transmitted 1
        { s with pendingIn := true, txPacket := none, buffer := P1 } =
      some ({ s with pendingIn := false, txPacket := none, buffer := P1 },
        [Event.packetTransmitted]) := by
  refine ⟨?_, ?_, ?_, ?_⟩
  · simp [transmit_packet, hpi, hlen]
  · simp [packet_in]
  · simp [packet_in, htx]
  · simp [packet_transmitted, hc]

theorem c7_transmit_roundtrip_witness :
    transmit_packet (List.replicate 64 7) { initState with clientSet := true } =
      some (true,
        { initState with clientSet := true, pendingIn := true,
                         txPacket := some (List.replicate 64 7) },
        [Event.resumeIn 1]) ∧
    packet_in TransferType.Interrupt 1
        { initState with clientSet := true, pendingIn := true,
                         txPacket := some (List.replicate 64 7) } =
      some (InResult.Packet 64,
        { initState with clientSet := true, pendingIn := true,
                         buffer := List.replicate 64 7 }, []) ∧
    packet_in TransferType.Interrupt 1 initState =
      some (InResult.Delay, initState, []) ∧
    packet_transmitted 1
        { initState with clientSet := true, pendingIn := true,
                         buffer := List.replicate 64 7 } =
      some ({ initState with clientSet := true, buffer := List.replicate 64 7 },
        [Event.packetTransmitted]) :=
  c7_transmit_roundtrip { initState with clientSet := true }
    (List.replicate 64 7) initState (by simp) rfl rfl rfl

/-- C8: in every state reachable by any sequence of the operations and
hardware callbacks, a staged outgoing packet (`tx_packet` present) implies
`PendingIn` is set: every operation preserves the invariant
`OutgoingPacket present ⇒ PendingIn`. -/
theorem c8_staged_implies_pending (s : HidState) (h : Reachable s) :
    s.txPacket.isSome = true → s.pendingIn = true := by
  induction h with
  | init => simp [initState]
  | next op t t' ht hstep ih =>
    cases op with
    | setClient =>
      simp only [stepOp, Option.some.injEq] at hstep
      subst hstep
      simpa [set_client] using ih
    | transmit p =>
      by_cases hpi : t.pendingIn = true
      · simp [stepOp, transmit_packet, hpi] at hstep
        subst hstep
        exact ih
      · have hpi2 : t.pendingIn = false := by simpa using hpi
        by_cases hl : p.length = 64
        · simp [stepOp, transmit_packet, hpi2, hl] at hstep
          subst hstep
          simp
        · simp [stepOp, transmit_packet, hpi2, hl] at hstep
    | receive r =>
      cases hp : t.pendingOut with
      | true =>
        simp [stepOp, receive_packet_eq, hp] at hstep
        subst hstep
        exact ih
      | false =>
        cases hd : t.delayedOut with
        | false =>
          simp [stepOp, receive_packet_eq, hp, hd] at hstep
          subst hstep
          simpa using ih
        | true =>
          by_cases hcr : (t.clientSet && r) = true
          · simp [stepOp, receive_packet_eq, hp, hd, hcr] at hstep
            subst hstep
            simp
          · have hcr2 : (t.clientSet && r) = false := by simpa using hcr
            simp [stepOp, receive_packet_eq, hp, hd, hcr2] at hstep
            subst hstep
            simpa using ih
    | cancel =>
      simp only [stepOp, cancel_transaction_eq, Option.some.injEq] at hstep
      subst hstep
      simp
    | packetIn tt ep =>
      cases tt with
      | Bulk =>
        simp [stepOp, packet_in] at hstep
        subst hstep
        exact ih
      | Control => simp [stepOp, packet_in] at hstep
      | Isochronous => simp [stepOp, packet_in] at hstep
      | Interrupt =>
        by_cases hep : ep = 1
        · cases htx : t.txPacket with
          | none =>
            simp [stepOp, packet_in, hep, htx] at hstep
            subst hstep
            exact ih
          | some q =>
            simp [stepOp, packet_in, hep, htx] at hstep
            subst hstep
            simp
        · simp [stepOp, packet_in, hep] at hstep
          subst hstep
          exact ih
    | packetOut tt ep n r =>
      cases tt with
      | Bulk =>
        simp [stepOp, packet_out] at hstep
        subst hstep
        exact ih
      | Control => simp [stepOp, packet_out] at hstep
      | Isochronous => simp [stepOp, packet_out] at hstep
      | Interrupt =>
        by_cases hep : ep = 1
        · by_cases hn : n = 64
          · rcases hsend : send_packet_to_client r t with _ | ⟨res, st, ev⟩
            · simp [stepOp, packet_out, hep, hn, hsend] at hstep
            · cases res with
              | true =>
                simp [stepOp, packet_out, hep, hn, hsend] at hstep
                subst hstep
                rcases send_packet_to_client_fields r t st true ev hsend with
                  ⟨-, htx2, -, -, -, -, -⟩ | ⟨hff, -⟩
                · simp [htx2]
                · cases hff
              | false =>
                simp [stepOp, packet_out, hep, hn, hsend] at hstep
                subst hstep
                rcases send_packet_to_client_fields r t st false ev hsend with
                  ⟨hff, -, -, -, -, -, -⟩ | ⟨-, hst⟩
                · cases hff
                · subst hst
                  simpa using ih
          · simp [stepOp, packet_out, hep, hn] at hstep
            subst hstep
            exact ih
        · simp [stepOp, packet_out, hep] at hstep
          subst hstep
          exact ih
    | packetTransmitted ep =>
      by_cases hep : ep = 1
      · cases htx : t.txPacket.isSome with
        | true => simp [stepOp, packet_transmitted, hep, htx] at hstep
        | false =>
          simp [stepOp, packet_transmitted, hep, htx] at hstep
          subst hstep
          simp [htx]
      · simp [stepOp, packet_transmitted, hep] at hstep
    | hwWrite p =>
      simp only [stepOp, Option.some.injEq] at hstep
      subst hstep
      simpa using ih

theorem c8_staged_implies_pending_witness :
    ({ initState with pendingIn := true,
                      txPacket := some (List.replicate 64 0) } : HidState).pendingIn =
      true :=
  c8_staged_implies_pending
    { initState with pendingIn := true, txPacket := some (List.replicate 64 0) }
    (Reachable.next (Op.transmit (List.replicate 64 0)) initState _
      Reachable.init (by decide)) rfl
